import Mathlib

/-!
Shallow embedding of `src/main.py` (ColdEmailGenerator, a Streamlit cold
email generator). Python strings are Lean `String`s; Python `None` and
string truthiness are modelled with `Option String` and emptiness checks;
exceptions raised by the external libraries (PyPDF2, the Groq client) are
modelled as explicit `Except` values fed in as oracles; the outbound
network call is an oracle function from requests to responses, and each
embedded function reports the list of requests it issued so that network
calls can be counted. User-visible `st.error` / `st.warning` messages are
collected in a list.
-/

/-- Python truthiness of an optional string: `None` and the empty string
are falsy, every other string is truthy. -/
def truthy : Option String → Bool
  | none => false
  | some s => !s.isEmpty

/-- Embedding of the key-resolution logic of `ColdEmailGenerator.__init__`
(src/main.py lines 11-40). `api_key` is the constructor argument,
`env_key` the value of `os.getenv` for GROQ_API_KEY, `secrets` the
Streamlit secret (`none` when the attribute is absent, `some s` when
present with value `s`), and `user_input` whatever `st.text_input`
returns when the user is prompted. The result is the key the Groq client
is constructed with, or `none` when `self.client = None`. -/
def resolveKey (api_key env_key secrets : Option String) (user_input : String) :
    Option String :=
  if truthy api_key then api_key
  else
    let k1 := env_key
    let k2 := if !truthy k1 then
                match secrets with
                | some s => some s
                | none => k1
              else k1
    let k3 := if !truthy k2 then some user_input else k2
    if truthy k3 then k3 else none

/-- The resolution policy as the spec words it: first non-empty source
wins, in the order explicit argument, environment variable, platform
secret, interactive user entry; absence when all are empty. Compared
against `resolveKey`, which is read off the source. -/
def specResolve (api_key env_key secrets : Option String) (user_input : String) :
    Option String :=
  if truthy api_key then api_key
  else if truthy env_key then env_key
  else if truthy secrets then secrets
  else if user_input.isEmpty then none
  else some user_input

/-- One chat message of the request body (src/main.py lines 66-81). -/
structure Message where
  role : String
  content : String
deriving DecidableEq

/-- One call to `self.client.chat.completions.create` with its keyword
arguments (src/main.py lines 65-85). The sampling temperature is the
rational 7/10, the exact decimal constant 0.7 of the source. -/
structure Request where
  messages : List Message
  model : String
  max_tokens : Nat
  temperature : Rat
deriving DecidableEq

/-- A chat-completion response; each element of `choices` is the
`message.content` of one returned choice (src/main.py line 86). -/
structure Response where
  choices : List String
deriving DecidableEq

/-- The fixed system instruction of src/main.py lines 69-75, byte for
byte, including the trailing space of the first line and the 24-space
indentation the Python triple-quoted literal carries. -/
def systemPrompt : String :=
  "You are a professional email writer specializing in cold outreach for job applications. \n                        Create a personalized, concise, and compelling cold email that:\n                        1. Demonstrates knowledge of the company and role\n                        2. Highlights relevant skills from the resume\n                        3. Shows genuine interest in the position\n                        4. Maintains a professional yet warm tone\n                        5. Keeps the email to 3-4 paragraphs max"

/-- The single request `generate_cold_email` builds (src/main.py lines
65-85): two messages, the fixed system instruction and the user message
interpolating the job description and resume text, with the fixed model
identifier, max_tokens and temperature. -/
def mkRequest (job_description resume_text : String) : Request :=
  { messages := [⟨"system", systemPrompt⟩,
                 ⟨"user", "Job Description:\n" ++ job_description ++
                          "\n\nMy Resume:\n" ++ resume_text⟩],
    model := "llama3-70b-8192",
    max_tokens := 500,
    temperature := 7/10 }

/-- Result of one `generate_cold_email` call: Python return value,
requests issued to the network, error messages shown. -/
structure GenResult where
  result : Option String
  requests : List Request
  errors : List String
deriving DecidableEq

/-- Embedding of `ColdEmailGenerator.generate_cold_email` (src/main.py
lines 56-89). `client` is `self.client` (`some k` when a Groq client
holding key `k` was constructed, `none` when `self.client = None`);
`remote` is the network oracle: `Except.error e` models the call raising
an exception with text `e`. Indexing `choices[0]` on an empty choices
list raises inside the `try` block, so it lands in the same handler. -/
def generate_cold_email (client : Option String)
    (remote : Request → Except String Response)
    (job_description resume_text : String) : GenResult :=
  match client with
  | none => ⟨none, [], ["Groq client not initialized. Cannot generate email."]⟩
  | some _ =>
    let req := mkRequest job_description resume_text
    match remote req with
    | Except.error e => ⟨none, [req], ["Error generating email: " ++ e]⟩
    | Except.ok resp =>
      match resp.choices.head? with
      | none => ⟨none, [req], ["Error generating email: list index out of range"]⟩
      | some c => ⟨some c, [req], []⟩

deriving instance DecidableEq for Except

/-- An uploaded PDF as the extraction code observes it: either
`PyPDF2.PdfReader` raises on construction, or it yields a list of pages,
each of whose `extract_text()` either returns a string or raises. -/
inductive PdfFile where
  | bad (e : String)
  | ok (pages : List (Except String String))
deriving DecidableEq

/-- The `text = ""; for page in pages: text += page.extract_text()` loop
(src/main.py lines 48-50): accumulates page texts left to right, the
first raising page aborting the whole loop. -/
def extractPages : List (Except String String) → String → Except String String
  | [], acc => Except.ok acc
  | Except.error e :: _, _ => Except.error e
  | Except.ok t :: ps, acc => extractPages ps (acc ++ t)

/-- Result of one `extract_text_from_pdf` call: Python return value and
error messages shown. -/
structure ExtractResult where
  result : Option String
  errors : List String
deriving DecidableEq

/-- Embedding of `ColdEmailGenerator.extract_text_from_pdf` (src/main.py
lines 42-54): any exception, from the reader constructor or from any
page, is caught, an error is shown, and `None` is returned; otherwise the
concatenated text is returned. Being a total Lean function, no exception
can escape to the caller. -/
def extract_text_from_pdf : PdfFile → ExtractResult
  | PdfFile.bad e => ⟨none, ["Error reading PDF: " ++ e]⟩
  | PdfFile.ok pages =>
    match extractPages pages "" with
    | Except.error e => ⟨none, ["Error reading PDF: " ++ e]⟩
    | Except.ok t => ⟨some t, []⟩

/-- Whether the PDF input makes the extraction code raise somewhere:
either the reader constructor raises or some page raises. -/
def pdfRaises : PdfFile → Bool
  | PdfFile.bad _ => true
  | PdfFile.ok pages => pages.any (fun p => match p with
      | Except.error _ => true
      | Except.ok _ => false)

/-- Where the button-click flow of `main` (src/main.py lines 124-146)
stops. -/
inductive MainOutcome where
  | warnNoResume
  | warnNoJobDescription
  | stoppedAfterExtraction
  | stoppedAfterGeneration
  | displayed (email : String)
deriving DecidableEq

/-- Result of one button-click of `main`: where the flow ended, the
requests issued, and the warning/error messages shown. -/
structure MainResult where
  outcome : MainOutcome
  requests : List Request
  messages : List String
deriving DecidableEq

/-- Embedding of the `main` flow after the Generate button is pressed
(src/main.py lines 113-146). The client is resolved exactly as `main`
does it, by constructing `ColdEmailGenerator(api_key=manual_api_key)`
where `manual_api_key` is the sidebar text input (a string, empty when
untouched). `if resume_text:` and `if generated_email:` are Python
truthiness tests, so both `None` and the empty string stop the flow
silently. -/
def mainFlow (manual_api_key : String) (env_key secrets : Option String)
    (user_input : String) (uploaded_resume : Option PdfFile)
    (job_description : String)
    (remote : Request → Except String Response) : MainResult :=
  let client := resolveKey (some manual_api_key) env_key secrets user_input
  match uploaded_resume with
  | none => ⟨MainOutcome.warnNoResume, [], ["Please upload your resume"]⟩
  | some pdf =>
    if job_description.isEmpty then
      ⟨MainOutcome.warnNoJobDescription, [], ["Please paste the job description"]⟩
    else
      let ext := extract_text_from_pdf pdf
      match ext.result with
      | none => ⟨MainOutcome.stoppedAfterExtraction, [], ext.errors⟩
      | some rt =>
        if rt.isEmpty then ⟨MainOutcome.stoppedAfterExtraction, [], ext.errors⟩
        else
          let g := generate_cold_email client remote job_description rt
          match g.result with
          | none => ⟨MainOutcome.stoppedAfterGeneration, g.requests,
                     ext.errors ++ g.errors⟩
          | some e =>
            if e.isEmpty then ⟨MainOutcome.stoppedAfterGeneration, g.requests,
                               ext.errors ++ g.errors⟩
            else ⟨MainOutcome.displayed e, g.requests, ext.errors ++ g.errors⟩

/-- C1: for every combination of the four credential sources, the key
resolver of ColdEmailGenerator.__init__ selects the highest-priority
non-empty source, explicit argument first, then environment variable,
then platform secret, then interactive user entry, and ignores every
lower-priority source: on all inputs it agrees with the spec policy
specResolve; in particular a non-empty explicit argument wins even when
the environment variable is also set. -/
theorem resolveKey_eq_specResolve (a e s : Option String) (u : String) :
    resolveKey a e s u = specResolve a e s u := by
  rcases a with _ | sa <;> rcases e with _ | se <;> rcases s with _ | ss <;>
    simp only [resolveKey, specResolve, truthy] <;>
    split_ifs <;> simp_all

example : resolveKey (some "X") (some "Y") none "" = some "X" := by decide

/-- C2: when every credential source yields an empty or absent value the
resolver leaves the client uninitialized (None), and any subsequent
generate_cold_email call returns an explicit failure immediately with
zero network requests. -/
theorem no_key_no_call (a e s : Option String) (u : String)
    (ha : truthy a = false) (he : truthy e = false) (hs : truthy s = false)
    (hu : u.isEmpty = true) :
    resolveKey a e s u = none ∧
    ∀ (remote : Request → Except String Response) (jd rt : String),
      generate_cold_email (resolveKey a e s u) remote jd rt =
        ⟨none, [], ["Groq client not initialized. Cannot generate email."]⟩ := by
  have hres : resolveKey a e s u = none := by
    rcases a with _ | sa <;> rcases e with _ | se <;> rcases s with _ | ss <;>
      simp_all [resolveKey, truthy]
  refine ⟨hres, ?_⟩
  intro remote jd rt
  rw [hres]
  rfl

theorem no_key_no_call_witness :
    resolveKey none none none "" = none ∧
    generate_cold_email (resolveKey none none none "")
        (fun _ => Except.ok ⟨["x"]⟩) "jd" "rt" =
      ⟨none, [], ["Groq client not initialized. Cannot generate email."]⟩ := by
  have h := no_key_no_call none none none "" (by decide) (by decide)
    (by decide) (by decide)
  exact ⟨h.1, h.2 (fun _ => Except.ok ⟨["x"]⟩) "jd" "rt"⟩

/-- C3: a generation attempt in the main flow reaches the Email Generator
(issues a request) only if the resolver produced a credential, the job
description is non-empty, and the extracted resume text is non-null; when
any of these is missing no request is issued. -/
theorem main_gen_invariant (manual : String) (env secrets : Option String)
    (user : String) (upload : Option PdfFile) (jd : String)
    (remote : Request → Except String Response)
    (h : (mainFlow manual env secrets user upload jd remote).requests ≠ []) :
    (∃ k, resolveKey (some manual) env secrets user = some k) ∧
    jd.isEmpty = false ∧
    (∃ pdf rt, upload = some pdf ∧
      (extract_text_from_pdf pdf).result = some rt) := by
  rcases upload with _ | pdf
  · simp [mainFlow] at h
  · by_cases hjd : jd.isEmpty
    · simp [mainFlow, hjd] at h
    · rcases hext : (extract_text_from_pdf pdf).result with _ | rt
      · simp [mainFlow, hjd, hext] at h
      · by_cases hrt : rt.isEmpty
        · simp [mainFlow, hjd, hext, hrt] at h
        · rcases hcl : resolveKey (some manual) env secrets user with _ | k
          · simp [mainFlow, hjd, hext, hrt, hcl, generate_cold_email] at h
          · exact ⟨⟨k, rfl⟩, by simpa using hjd, ⟨pdf, rt, rfl, hext⟩⟩

theorem main_gen_invariant_witness :
    (∃ k, resolveKey (some "K") none none "" = some k) ∧
    ("J" : String).isEmpty = false ∧
    (∃ pdf rt, (some (PdfFile.ok [Except.ok "R"]) : Option PdfFile) = some pdf ∧
      (extract_text_from_pdf pdf).result = some rt) :=
  main_gen_invariant "K" none none "" (some (PdfFile.ok [Except.ok "R"])) "J"
    (fun _ => Except.ok ⟨["hello"]⟩) (by decide)

/-- C4: with an initialized client, generate_cold_email issues exactly one
request; its two ordered messages are the fixed system instruction and a
user message holding the verbatim job description followed by the
verbatim resume text, with the fixed model identifier, max_tokens 500 and
temperature 0.7. -/
theorem generate_request_shape (k : String)
    (remote : Request → Except String Response) (jd rt : String) :
    (generate_cold_email (some k) remote jd rt).requests = [mkRequest jd rt] ∧
    (mkRequest jd rt).messages =
      [⟨"system", systemPrompt⟩,
       ⟨"user", "Job Description:\n" ++ jd ++ "\n\nMy Resume:\n" ++ rt⟩] ∧
    (mkRequest jd rt).messages.length = 2 ∧
    (mkRequest jd rt).model = "llama3-70b-8192" ∧
    (mkRequest jd rt).max_tokens = 500 ∧
    (mkRequest jd rt).temperature = 7/10 := by
  refine ⟨?_, rfl, rfl, rfl, rfl, rfl⟩
  cases hrem : remote (mkRequest jd rt) with
  | error e => simp [generate_cold_email, hrem]
  | ok resp =>
    cases hh : resp.choices.head? <;> simp [generate_cold_email, hrem, hh]

/-- C5: given a resolved credential, a non-empty job description and
non-null resume text, a successful remote call makes generate_cold_email
return exactly the message content of the first returned choice, with no
transformation applied. -/
theorem generate_success_verbatim (k jd rt : String)
    (remote : Request → Except String Response) (resp : Response)
    (c : String) (cs : List String)
    (_hjd : jd.isEmpty = false)
    (hok : remote (mkRequest jd rt) = Except.ok resp)
    (hch : resp.choices = c :: cs) :
    (generate_cold_email (some k) remote jd rt).result = some c := by
  simp [generate_cold_email, hok, hch]

theorem generate_success_verbatim_witness :
    (generate_cold_email (some "K") (fun _ => Except.ok ⟨["Hello"]⟩)
      "J" "R").result = some "Hello" :=
  generate_success_verbatim "K" "J" "R" (fun _ => Except.ok ⟨["Hello"]⟩)
    ⟨["Hello"]⟩ "Hello" [] (by decide) rfl rfl

theorem extractPages_all_ok (texts : List String) (acc : String) :
    extractPages (texts.map Except.ok) acc =
      Except.ok (texts.foldl (fun r s => r ++ s) acc) := by
  induction texts generalizing acc with
  | nil => rfl
  | cons t ts ih => simpa [extractPages] using ih (acc ++ t)

/-- C6: for every well-formed PDF, multi-page ones included,
extract_text_from_pdf returns the concatenation of the page texts in page
order, and reports no error. -/
theorem extract_concat_in_order (texts : List String) :
    extract_text_from_pdf (PdfFile.ok (texts.map Except.ok)) =
      ⟨some (String.join texts), []⟩ := by
  simp [extract_text_from_pdf, extractPages_all_ok, String.join]

theorem extractPages_any_err (pages : List (Except String String)) (acc : String)
    (h : pages.any (fun p => match p with
        | Except.error _ => true
        | Except.ok _ => false) = true) :
    ∃ e, extractPages pages acc = Except.error e := by
  induction pages generalizing acc with
  | nil => simp at h
  | cons p ps ih =>
    cases p with
    | error e => exact ⟨e, rfl⟩
    | ok t =>
      simp only [List.any_cons, Bool.false_or] at h
      exact ih (acc ++ t) h

/-- C7: every PDF input that raises during extraction, whether the reader
constructor or any single page raises, makes extract_text_from_pdf catch
the exception, report an error, and return None; the embedding is a total
function, so no exception escapes, and the main flow then issues no
request and displays no email. -/
theorem extract_raises_none (pdf : PdfFile) (h : pdfRaises pdf = true) :
    (extract_text_from_pdf pdf).result = none ∧
    (extract_text_from_pdf pdf).errors ≠ [] ∧
    ∀ (manual : String) (env secrets : Option String) (user jd : String)
      (remote : Request → Except String Response),
      (mainFlow manual env secrets user (some pdf) jd remote).requests = [] ∧
      ∀ em, (mainFlow manual env secrets user (some pdf) jd remote).outcome ≠
        MainOutcome.displayed em := by
  have hres : (extract_text_from_pdf pdf).result = none ∧
      (extract_text_from_pdf pdf).errors ≠ [] := by
    cases pdf with
    | bad e => simp [extract_text_from_pdf]
    | ok pages =>
      obtain ⟨e, he⟩ := extractPages_any_err pages "" (by simpa [pdfRaises] using h)
      simp [extract_text_from_pdf, he]
  refine ⟨hres.1, hres.2, ?_⟩
  intro manual env secrets user jd remote
  by_cases hjd : jd.isEmpty
  · exact ⟨by simp [mainFlow, hjd], fun em => by simp [mainFlow, hjd]⟩
  · exact ⟨by simp [mainFlow, hjd, hres.1], fun em => by simp [mainFlow, hjd, hres.1]⟩

theorem extract_raises_none_witness :
    (extract_text_from_pdf (PdfFile.bad "corrupt")).result = none ∧
    (mainFlow "K" none none "" (some (PdfFile.bad "corrupt")) "J"
        (fun _ => Except.ok ⟨["x"]⟩)).requests = [] := by
  have h := extract_raises_none (PdfFile.bad "corrupt") (by decide)
  exact ⟨h.1, (h.2.2 "K" none none "" "J" (fun _ => Except.ok ⟨["x"]⟩)).1⟩

/-- C8: when the remote call raises, generate_cold_email catches the
exception and returns None instead of propagating it, having issued
exactly one request (no retry); every error cause surfaces through the
same single generic message and the same failure result. -/
theorem generate_remote_error (k jd rt e : String)
    (remote : Request → Except String Response)
    (h : remote (mkRequest jd rt) = Except.error e) :
    generate_cold_email (some k) remote jd rt =
      ⟨none, [mkRequest jd rt], ["Error generating email: " ++ e]⟩ := by
  simp [generate_cold_email, h]

theorem generate_remote_error_witness :
    generate_cold_email (some "K") (fun _ => Except.error "boom") "J" "R" =
      ⟨none, [mkRequest "J" "R"], ["Error generating email: boom"]⟩ :=
  generate_remote_error "K" "J" "R" "boom" (fun _ => Except.error "boom") rfl

/-- C9: generate_cold_email performs no validation of its arguments: with
an initialized client it issues the network request for every job
description and resume text, empty ones included; the non-emptiness
checks are enforced only by main, which issues no request when the job
description is empty. -/
theorem generate_no_validation (k : String)
    (remote : Request → Except String Response) (jd rt : String) :
    (generate_cold_email (some k) remote jd rt).requests = [mkRequest jd rt] ∧
    ∀ (manual : String) (env secrets : Option String) (user : String)
      (upload : Option PdfFile) (remote2 : Request → Except String Response),
      (mainFlow manual env secrets user upload "" remote2).requests = [] := by
  constructor
  · cases hrem : remote (mkRequest jd rt) with
    | error e => simp [generate_cold_email, hrem]
    | ok resp =>
      cases hh : resp.choices.head? <;> simp [generate_cold_email, hrem, hh]
  · intro manual env secrets user upload remote2
    cases upload <;>
      simp [mainFlow, (by decide : ("" : String).isEmpty = true)]

theorem extract_ok_no_error (pdf : PdfFile) (t : String)
    (h : (extract_text_from_pdf pdf).result = some t) :
    (extract_text_from_pdf pdf).errors = [] := by
  cases pdf with
  | bad e => simp [extract_text_from_pdf] at h
  | ok pages =>
    cases hp : extractPages pages "" <;>
      simp [extract_text_from_pdf, hp] at h ⊢

/-- C10: main tests results by string truthiness, so an extraction that
succeeds with the empty string stops the flow exactly like a failed
extraction, with no generation attempt and no message shown, and a
successful remote call whose first choice content is the empty string
leads to no email being displayed. -/
theorem main_truthiness_empty (manual : String) (env secrets : Option String)
    (user : String) (pdfEmpty pdfOk : PdfFile) (jd rt : String)
    (remote : Request → Except String Response)
    (hjd : jd.isEmpty = false)
    (hempty : (extract_text_from_pdf pdfEmpty).result = some "")
    (hok : (extract_text_from_pdf pdfOk).result = some rt)
    (hrt : rt.isEmpty = false)
    (hrem : remote (mkRequest jd rt) = Except.ok ⟨[""]⟩) :
    mainFlow manual env secrets user (some pdfEmpty) jd remote =
      ⟨MainOutcome.stoppedAfterExtraction, [], []⟩ ∧
    (mainFlow manual env secrets user (some pdfOk) jd remote).outcome =
      MainOutcome.stoppedAfterGeneration := by
  constructor
  · simp [mainFlow, hjd, hempty, extract_ok_no_error pdfEmpty "" hempty,
      (by decide : ("" : String).isEmpty = true)]
  · rcases hcl : resolveKey (some manual) env secrets user with _ | k
    · simp [mainFlow, hjd, hok, hrt, hcl, generate_cold_email]
    · simp [mainFlow, hjd, hok, hrt, hcl, generate_cold_email, hrem,
        (by decide : ("" : String).isEmpty = true)]

theorem main_truthiness_empty_witness :
    mainFlow "K" none none "" (some (PdfFile.ok [Except.ok ""])) "J"
        (fun _ => Except.ok ⟨[""]⟩) =
      ⟨MainOutcome.stoppedAfterExtraction, [], []⟩ ∧
    (mainFlow "K" none none "" (some (PdfFile.ok [Except.ok "R"])) "J"
        (fun _ => Except.ok ⟨[""]⟩)).outcome =
      MainOutcome.stoppedAfterGeneration :=
  main_truthiness_empty "K" none none "" (PdfFile.ok [Except.ok ""])
    (PdfFile.ok [Except.ok "R"]) "J" "R" (fun _ => Except.ok ⟨[""]⟩)
    (by decide) (by decide) (by decide) (by decide) rfl
